import Mathlib

/-!
Shallow embedding of the nestjs-nominatim service layer
(`src/nominatim.service.ts`, `src/helpers/cash-keys.ts`,
`src/nominatim.module.ts`, `src/config/nominatim.config.ts`,
`src/config/cash.config.ts`).

The service wraps four HTTP GET operations (search, reverse, lookup,
status) in a read-through cache and a response formatter.  The embedding
makes the effects explicit: each operation is a pure function of the
service options, a transport function (modelling what the HTTP layer
returns for a given outbound request), and the current cache contents;
it returns its result together with the new cache contents, the list of
cache operations it performed and the list of outbound HTTP requests it
issued.
-/

/-- A JavaScript runtime value, as far as the cache layer can observe it.
`cachedRequest` is generic in the cached type `T` and tests the value it
got back from the store with a bare truthiness check (`if (cached)`),
so the embedding keeps the JavaScript value universe rather than a fixed
payload type.  (Floating-point numbers are restricted to integers; the
truthiness of a number depends only on whether it is zero.) -/
inductive CVal where
  | vNull : CVal
  | vUndef : CVal
  | vBool : Bool → CVal
  | vInt : Int → CVal
  | vStr : String → CVal
  | vArr : List CVal → CVal
  | vObj : List (String × CVal) → CVal

/-- JavaScript truthiness: `null`, `undefined`, `false`, `0` and the empty
string are falsy; every array and object is truthy. -/
def CVal.truthy : CVal → Bool
  | .vNull => false
  | .vUndef => false
  | .vBool b => b
  | .vInt n => n != 0
  | .vStr s => s != ""
  | .vArr _ => true
  | .vObj _ => true

/-- The one error kind the service throws: `new Error(message)`. -/
inductive ServiceError where
  | generic : String → ServiceError
deriving DecidableEq

/-- A failure of the underlying HTTP call, before the service's catch
block collapses it: an axios error (message, optional response status and
body — a missing status models a network error or timeout with no
response) or any other thrown value. -/
inductive TransportError where
  | axiosError : String → Option Nat → Option CVal → TransportError
  | otherError : String → TransportError

/-- An outbound HTTP GET: endpoint path plus the full query-parameter
list (axios merges the instance-level default params with the per-call
params; values are shown in their serialized string form). -/
structure HttpRequest where
  path : String
  params : List (String × String)
deriving DecidableEq

/-- The resolved options the service is constructed with (the
`NOMINATIM_OPTIONS` provider value built by `NominatimModule.forRoot`). -/
structure ServiceOpts where
  baseUrl : String
  language : String
  addressdetails : Bool
  timeout : Nat
  userAgent : String
  extratags : Bool
  namedetails : Bool

/-- The `NominatimConfig` default-value object
(`src/config/nominatim.config.ts`). -/
structure NominatimConfigT where
  baseUrl : String
  format : String
  language : String
  addressdetails : Bool
  timeout : Nat
  userAgent : String
  extratags : Bool
  namedetails : Bool

def NominatimConfig : NominatimConfigT :=
  { baseUrl := "https://nominatim.openstreetmap.org"
    format := "json"
    language := "en"
    addressdetails := true
    timeout := 5000
    userAgent := "nestjs-nominatim/1.0"
    extratags := false
    namedetails := false }

/-- The instance-level default query parameters built in the service
constructor: `format` and `accept-language` always, and each detail flag
as `1` exactly when the corresponding option is `true`. -/
def defaultParams (o : ServiceOpts) : List (String × String) :=
  [("format", NominatimConfig.format), ("accept-language", o.language)]
    ++ (if o.addressdetails then [("addressdetails", "1")] else [])
    ++ (if o.extratags then [("extratags", "1")] else [])
    ++ (if o.namedetails then [("namedetails", "1")] else [])

/-- What the HTTP layer does with an outbound request: either a parsed
JSON body or a transport failure.  The service is a pure function of
this behaviour. -/
def Transport := HttpRequest → Except TransportError CVal

/-- One entry of the external cache store: key, stored value, and the
TTL the entry was stored with (`none` means the store's own default). -/
structure CacheEntry where
  key : String
  val : CVal
  ttl : Option Nat

/-- The observable contents of the shared cache store. -/
def Cache := List CacheEntry

/-- `cacheManager.get(key)`: the value stored under `key`, if any. -/
def cacheGet (c : Cache) (k : String) : Option CVal :=
  (List.find? (fun e => e.key == k) c).map CacheEntry.val

/-- `cacheManager.set(key, value, ttl)`: overwrite whatever is stored
under `key`. -/
def cacheSet (c : Cache) (k : String) (v : CVal) (ttl : Option Nat) : Cache :=
  ⟨k, v, ttl⟩ :: List.filter (fun e => e.key != k) c

/-- What the guard `if (cached) return cached;` accepts: the stored
value when there is one and it is truthy. -/
def cacheHit (c : Cache) (k : String) : Option CVal :=
  match cacheGet c k with
  | some v => if v.truthy then some v else none
  | none => none

/-- A cache-store operation performed by the service, in order. -/
inductive CacheOp where
  | get : String → CacheOp
  | set : String → CVal → Option Nat → CacheOp

/-- The key a cache operation touches. -/
def CacheOp.key : CacheOp → String
  | .get k => k
  | .set k _ _ => k

/-- Whether a cache operation writes to the store. -/
def CacheOp.isWrite : CacheOp → Bool
  | .get _ => false
  | .set _ _ _ => true

/-- Result of the private `request` helper: the value it resolves with
(or the error it throws) plus the outbound HTTP request it issued. -/
structure ReqOutcome where
  result : Except ServiceError CVal
  calls : List HttpRequest

/-- `request(url, params)`: issue the GET with the instance default
params merged with the per-call params; on any transport failure, throw
the one generic error (the underlying error is only logged). -/
def request (o : ServiceOpts) (tr : Transport) (url : String)
    (params : List (String × String)) : ReqOutcome :=
  match tr ⟨url, defaultParams o ++ params⟩ with
  | .ok data => ⟨.ok data, [⟨url, defaultParams o ++ params⟩]⟩
  | .error _ => ⟨.error (.generic "Nominatim request failed"),
      [⟨url, defaultParams o ++ params⟩]⟩

/-- Everything observable about one service-method call: the resolved or
thrown result, the cache contents afterwards, the cache operations
performed, the outbound HTTP requests issued, and how many times the
fetch function handed to `cachedRequest` was invoked. -/
structure Outcome where
  result : Except ServiceError CVal
  cache : Cache
  ops : List CacheOp
  calls : List HttpRequest
  fetchCount : Nat

/-- `cachedRequest(key, requestFn, ttl)`: get the key from the cache;
a truthy cached value is returned as is.  Otherwise invoke `requestFn`;
if it resolves, store its result under the key with the given TTL and
return it; if it throws, the error propagates and nothing is stored. -/
def cachedRequest (c : Cache) (k : String) (fetch : Unit → ReqOutcome)
    (ttl : Option Nat) : Outcome :=
  match cacheHit c k with
  | some v => ⟨.ok v, c, [.get k], [], 0⟩
  | none =>
    match (fetch ()).result with
    | .ok r => ⟨.ok r, cacheSet c k r ttl, [.get k, .set k r ttl],
        (fetch ()).calls, 1⟩
    | .error e => ⟨.error e, c, [.get k], (fetch ()).calls, 1⟩

/-- Latitude/longitude pair (`Coordinates`); restricted to
integer-valued numbers so that the JavaScript number-to-string
conversion used in the cache-key template is exact decimal printing. -/
structure Coordinates where
  lat : Int
  lon : Int

/-- Cache key templates (`src/helpers/cash-keys.ts`). -/
def CacheKeys.SEARCH (query : String) : String := "search:" ++ query

def CacheKeys.REVERSE (lat lon : Int) : String :=
  "reverse:" ++ toString lat ++ ":" ++ toString lon

def CacheKeys.LOOKUP (osmIds : List String) : String :=
  "lookup:" ++ String.intercalate "," osmIds

namespace NominatimService

/-- `search(query)`: cached request to `/search` with `q=query`. -/
def search (o : ServiceOpts) (tr : Transport) (c : Cache)
    (query : String) : Outcome :=
  cachedRequest c (CacheKeys.SEARCH query)
    (fun _ => request o tr "/search" [("q", query)]) none

/-- `reverse(coordinates)`: cached request to `/reverse` with
`lat`/`lon`. -/
def reverse (o : ServiceOpts) (tr : Transport) (c : Cache)
    (coordinates : Coordinates) : Outcome :=
  cachedRequest c (CacheKeys.REVERSE coordinates.lat coordinates.lon)
    (fun _ => request o tr "/reverse"
      [("lat", toString coordinates.lat), ("lon", toString coordinates.lon)])
    none

/-- `lookup(osmIds)`: throws immediately when the id list is empty,
before touching cache or network; otherwise a cached request to
`/lookup` with the ids joined by commas. -/
def lookup (o : ServiceOpts) (tr : Transport) (c : Cache)
    (osmIds : List String) : Outcome :=
  if osmIds.length = 0 then
    ⟨.error (.generic "lookup requires at least one OSM ID"), c, [], [], 0⟩
  else
    cachedRequest c (CacheKeys.LOOKUP osmIds)
      (fun _ => request o tr "/lookup"
        [("osm_ids", String.intercalate "," osmIds)])
      none

/-- `healthCheck()`: plain uncached request to `/status`. -/
def healthCheck (o : ServiceOpts) (tr : Transport) (c : Cache) : Outcome :=
  ⟨(request o tr "/status" []).result, c, [], (request o tr "/status" []).calls, 0⟩

end NominatimService

/-- One public call to the service, for reasoning about call
sequences. -/
inductive Call where
  | search : String → Call
  | reverse : Coordinates → Call
  | lookup : List String → Call
  | health : Call

/-- Dispatch one public call. -/
def runCall (o : ServiceOpts) (tr : Transport) (c : Cache) : Call → Outcome
  | .search q => NominatimService.search o tr c q
  | .reverse coords => NominatimService.reverse o tr c coords
  | .lookup ids => NominatimService.lookup o tr c ids
  | .health => NominatimService.healthCheck o tr c

/-- The cache contents after a sequence of public calls. -/
def runCalls (o : ServiceOpts) (tr : Transport) (c : Cache) :
    List Call → Cache
  | [] => c
  | call :: rest => runCalls o tr (runCall o tr c call).cache rest

/-- The address components of a Place that `formatLocation` reads
(`src/types/interfaces/address.interface.ts`); every field is optional.
The hyphenated upstream keys `ISO3166-2-lvlN` are spelled with
underscores. -/
structure NominatimAddress where
  road : Option String := none
  street : Option String := none
  highway : Option String := none
  residential : Option String := none
  building : Option String := none
  public_building : Option String := none
  amenity : Option String := none
  shop : Option String := none
  tourism : Option String := none
  leisure : Option String := none
  office : Option String := none
  neighbourhood : Option String := none
  suburb : Option String := none
  city_district : Option String := none
  district : Option String := none
  city : Option String := none
  town : Option String := none
  village : Option String := none
  hamlet : Option String := none
  municipality : Option String := none
  county : Option String := none
  state : Option String := none
  region : Option String := none
  postcode : Option String := none
  country : Option String := none
  country_code : Option String := none
  iso3166_2_lvl2 : Option String := none
  iso3166_2_lvl4 : Option String := none
  iso3166_2_lvl6 : Option String := none
  iso3166_2_lvl8 : Option String := none

/-- The fields of a Place that `formatLocation` reads: the optional
address-detail block and the display name. -/
structure NominatimPlace where
  address : Option NominatimAddress := none
  display_name : Option String := none

/-- The normalized projection produced by `formatLocation`
(`src/types/interfaces/formatted-address.interface.ts`). -/
structure FormattedAddress where
  country : Option String
  countryCode : Option String
  postcode : Option String
  region : Option String
  regionCode : Option String
  commune : Option String
  district : Option String
  street : Option String
  placeType : Option String
  fullAddress : Option String
deriving DecidableEq

/-- `formatLocation(data)`: pure projection of a Place into the flat
address record, one nullish-coalescing fallback chain per field. -/
def formatLocation (data : NominatimPlace) : FormattedAddress :=
  let address := data.address.getD {}
  let display_name := data.display_name.getD ""
  { country := address.country
    countryCode := address.country_code
    postcode := address.postcode
    region := address.state <|> address.region
    regionCode := address.iso3166_2_lvl2 <|> address.iso3166_2_lvl4
      <|> address.iso3166_2_lvl6 <|> address.iso3166_2_lvl8
    commune := address.municipality <|> address.city <|> address.town
      <|> address.village <|> address.county
    district := address.city_district <|> address.district
      <|> address.suburb <|> address.neighbourhood <|> address.hamlet
    street := address.road <|> address.street <|> address.highway
      <|> address.residential
    placeType := address.amenity <|> address.building
      <|> address.public_building <|> address.office <|> address.shop
      <|> address.tourism <|> address.leisure
    fullAddress := some display_name }

/-- The cache configuration handed to `CacheModule.register`
(`src/config/cash.config.ts` spells the field `namespace`, a Lean
keyword, here `nspace`). -/
structure CacheManagerOpts where
  ttl : Option Nat := none
  nspace : Option String := none
  refreshThreshold : Option Nat := none
  nonBlocking : Option Bool := none

/-- The `CashConfig` default cache configuration (the empty `stores`
list, meaning the in-memory default store, is not modelled). -/
def CashConfig : CacheManagerOpts :=
  { ttl := some 86400000
    nspace := some "nominatim"
    refreshThreshold := some 60000
    nonBlocking := some false }

/-- The caller-facing option record accepted by
`NominatimModule.forRoot`; every field optional. -/
structure NominatimModuleOptions where
  baseUrl : Option String := none
  language : Option String := none
  addressdetails : Option Bool := none
  timeout : Option Nat := none
  userAgent : Option String := none
  extratags : Option Bool := none
  namedetails : Option Bool := none
  cache : Option CacheManagerOpts := none

/-- `NominatimModule.forRoot(options)`: resolve each option against its
`NominatimConfig` default with `??` and build the `NOMINATIM_OPTIONS`
provider value the service is constructed with. -/
def forRoot (options : NominatimModuleOptions) : ServiceOpts :=
  { baseUrl := options.baseUrl.getD NominatimConfig.baseUrl
    language := options.language.getD NominatimConfig.language
    addressdetails := options.addressdetails.getD NominatimConfig.addressdetails
    timeout := options.timeout.getD NominatimConfig.timeout
    userAgent := options.userAgent.getD NominatimConfig.userAgent
    extratags := options.extratags.getD NominatimConfig.extratags
    namedetails := options.namedetails.getD NominatimConfig.namedetails }

/-- The cache configuration `forRoot` registers: the caller's, else the
`CashConfig` default. -/
def forRootCacheConfig (options : NominatimModuleOptions) : CacheManagerOpts :=
  options.cache.getD CashConfig

/-! Basic lemmas about the request and cache layer -/

theorem request_calls_eq (o : ServiceOpts) (tr : Transport) (url : String)
    (ps : List (String × String)) :
    (request o tr url ps).calls = [⟨url, defaultParams o ++ ps⟩] := by
  unfold request
  cases tr ⟨url, defaultParams o ++ ps⟩ <;> rfl

theorem cachedRequest_calls_sub (c : Cache) (k : String)
    (fetch : Unit → ReqOutcome) (ttl : Option Nat) :
    ∀ r ∈ (cachedRequest c k fetch ttl).calls, r ∈ (fetch ()).calls := by
  unfold cachedRequest
  cases h : cacheHit c k with
  | none =>
    cases hf : (fetch ()).result with
    | ok res => simp
    | error e => simp
  | some v => simp

theorem cachedRequest_ops_key (c : Cache) (k : String)
    (fetch : Unit → ReqOutcome) (ttl : Option Nat) :
    ∀ op ∈ (cachedRequest c k fetch ttl).ops, op.key = k := by
  unfold cachedRequest
  cases h : cacheHit c k with
  | none =>
    cases hf : (fetch ()).result with
    | ok res => simp [CacheOp.key]
    | error e => simp [CacheOp.key]
  | some v => simp [CacheOp.key]

theorem cacheGet_set_self (c : Cache) (k : String) (v : CVal)
    (ttl : Option Nat) : cacheGet (cacheSet c k v ttl) k = some v := by
  simp [cacheGet, cacheSet, List.find?]

theorem mem_defaultParams_format (o : ServiceOpts) :
    ("format", "json") ∈ defaultParams o := by
  simp [defaultParams, NominatimConfig]

theorem mem_defaultParams_language (o : ServiceOpts) :
    ("accept-language", o.language) ∈ defaultParams o := by
  simp [defaultParams]

theorem mem_defaultParams_addressdetails (o : ServiceOpts) :
    ("addressdetails", "1") ∈ defaultParams o ↔ o.addressdetails = true := by
  unfold defaultParams
  cases o.addressdetails <;> cases o.extratags <;> cases o.namedetails <;>
    simp [NominatimConfig]

theorem mem_defaultParams_extratags (o : ServiceOpts) :
    ("extratags", "1") ∈ defaultParams o ↔ o.extratags = true := by
  unfold defaultParams
  cases o.addressdetails <;> cases o.extratags <;> cases o.namedetails <;>
    simp [NominatimConfig]

theorem mem_defaultParams_namedetails (o : ServiceOpts) :
    ("namedetails", "1") ∈ defaultParams o ↔ o.namedetails = true := by
  unfold defaultParams
  cases o.addressdetails <;> cases o.extratags <;> cases o.namedetails <;>
    simp [NominatimConfig]

/-- Every outbound request any public call issues has the instance
default parameters followed by the operation-specific ones, whose keys
are drawn from `q`, `lat`, `lon`, `osm_ids`. -/
theorem runCall_calls_shape (o : ServiceOpts) (tr : Transport) (c : Cache)
    (call : Call) :
    ∀ r ∈ (runCall o tr c call).calls, ∃ extra,
      r.params = defaultParams o ++ extra ∧
      ∀ p ∈ extra, p.1 = "q" ∨ p.1 = "lat" ∨ p.1 = "lon" ∨ p.1 = "osm_ids" := by
  intro r hr
  cases call with
  | search q =>
    have hsub := cachedRequest_calls_sub c (CacheKeys.SEARCH q)
      (fun _ => request o tr "/search" [("q", q)]) none r hr
    rw [request_calls_eq] at hsub
    simp only [List.mem_singleton] at hsub
    subst hsub
    exact ⟨[("q", q)], rfl, by simp⟩
  | reverse coords =>
    have hsub := cachedRequest_calls_sub c
      (CacheKeys.REVERSE coords.lat coords.lon)
      (fun _ => request o tr "/reverse"
        [("lat", toString coords.lat), ("lon", toString coords.lon)]) none r hr
    rw [request_calls_eq] at hsub
    simp only [List.mem_singleton] at hsub
    subst hsub
    exact ⟨[("lat", toString coords.lat), ("lon", toString coords.lon)], rfl,
      by simp⟩
  | lookup ids =>
    by_cases hlen : ids.length = 0
    · simp only [runCall, NominatimService.lookup, if_pos hlen] at hr
      simp at hr
    · simp only [runCall, NominatimService.lookup, if_neg hlen] at hr
      have hsub := cachedRequest_calls_sub c (CacheKeys.LOOKUP ids)
        (fun _ => request o tr "/lookup"
          [("osm_ids", String.intercalate "," ids)]) none r hr
      rw [request_calls_eq] at hsub
      simp only [List.mem_singleton] at hsub
      subst hsub
      exact ⟨[("osm_ids", String.intercalate "," ids)], rfl, by simp⟩
  | health =>
    simp only [runCall, NominatimService.healthCheck] at hr
    rw [request_calls_eq] at hr
    simp only [List.mem_singleton] at hr
    subst hr
    exact ⟨[], by simp, by simp⟩

/-! Claim C1 -/

/-- A cache that stores the (falsy) number `0` under key `k`. -/
def falsyCache : Cache := [⟨"k", CVal.vInt 0, none⟩]

/-- A fetch function that resolves with the string `"fresh"` and issues
no outbound call. -/
def freshFetch : Unit → ReqOutcome := fun _ => ⟨.ok (CVal.vStr "fresh"), []⟩

/-- Claim C1 as stated is false: with the value `0` present in the cache
under the requested key, `cachedRequest` nevertheless invokes the fetch
function (the guard `if (cached)` is a truthiness test, and `0` is
falsy) and returns the fetched value rather than the cached one. -/
theorem claim_C1_counterexample :
    cacheGet falsyCache "k" = some (CVal.vInt 0) ∧
    (cachedRequest falsyCache "k" freshFetch none).fetchCount = 1 ∧
    (cachedRequest falsyCache "k" freshFetch none).result =
      .ok (CVal.vStr "fresh") :=
  ⟨rfl, rfl, rfl⟩

/-- Claim C1 (amended): `cachedRequest` first looks the key up in the
cache; if a truthy value is present (truthiness is JavaScript's: in
particular every array and every object, hence every value the service
itself ever caches) it returns that value without invoking the fetch
function; if the entry is absent — or holds a falsy value — it invokes
the fetch function, stores the resolved result under the key with the
given TTL, and returns that result.  Consequently a second `search` with
an identical query string, after a first `search` populated the cache
from a successful upstream array response, performs no upstream request
and returns a value equal to the first. -/
theorem claim_C1_cachedRequest_amended (c : Cache) (k : String)
    (fetch : Unit → ReqOutcome) (ttl : Option Nat) :
    (∀ v, cacheHit c k = some v →
      cachedRequest c k fetch ttl = ⟨.ok v, c, [.get k], [], 0⟩) ∧
    (cacheHit c k = none → ∀ res, (fetch ()).result = .ok res →
      cachedRequest c k fetch ttl =
        ⟨.ok res, cacheSet c k res ttl, [.get k, .set k res ttl],
          (fetch ()).calls, 1⟩) ∧
    (∀ (o : ServiceOpts) (tr : Transport) (cs : Cache) (q : String)
        (places : List CVal),
      cacheHit cs (CacheKeys.SEARCH q) = none →
      tr ⟨"/search", defaultParams o ++ [("q", q)]⟩ = .ok (.vArr places) →
      (NominatimService.search o tr
          (NominatimService.search o tr cs q).cache q).calls = [] ∧
      (NominatimService.search o tr
          (NominatimService.search o tr cs q).cache q).fetchCount = 0 ∧
      (NominatimService.search o tr
          (NominatimService.search o tr cs q).cache q).result =
        (NominatimService.search o tr cs q).result) := by
  refine ⟨?_, ?_, ?_⟩
  · intro v hv
    unfold cachedRequest
    rw [hv]
  · intro hmiss res hres
    unfold cachedRequest
    rw [hmiss, hres]
  · intro o tr cs q places hmiss htr
    have h1 : NominatimService.search o tr cs q =
        ⟨.ok (.vArr places),
         cacheSet cs (CacheKeys.SEARCH q) (.vArr places) none,
         [.get (CacheKeys.SEARCH q),
          .set (CacheKeys.SEARCH q) (.vArr places) none],
         [⟨"/search", defaultParams o ++ [("q", q)]⟩], 1⟩ := by
      unfold NominatimService.search cachedRequest request
      rw [hmiss]
      simp [htr]
    have hhit : cacheHit
        (cacheSet cs (CacheKeys.SEARCH q) (CVal.vArr places) none)
        (CacheKeys.SEARCH q) = some (CVal.vArr places) := by
      unfold cacheHit
      rw [cacheGet_set_self]
      rfl
    have h2 : NominatimService.search o tr
        (cacheSet cs (CacheKeys.SEARCH q) (CVal.vArr places) none) q =
        ⟨.ok (.vArr places),
         cacheSet cs (CacheKeys.SEARCH q) (CVal.vArr places) none,
         [.get (CacheKeys.SEARCH q)], [], 0⟩ := by
      unfold NominatimService.search cachedRequest
      rw [hhit]
    have hcache : (NominatimService.search o tr cs q).cache =
        cacheSet cs (CacheKeys.SEARCH q) (CVal.vArr places) none := by
      rw [h1]
    have hres : (NominatimService.search o tr cs q).result =
        .ok (CVal.vArr places) := by
      rw [h1]
    refine ⟨by rw [hcache, h2], by rw [hcache, h2], by rw [hcache, h2, hres]⟩

/-- A cache holding a truthy string under key `k`. -/
def truthyCache : Cache := [⟨"k", CVal.vStr "v", none⟩]

/-- A transport that answers every request with a one-element result
array. -/
def trParis : Transport := fun _ => .ok (CVal.vArr [CVal.vStr "paris-place"])

theorem claim_C1_witness :
    cachedRequest truthyCache "k" freshFetch none =
      ⟨.ok (CVal.vStr "v"), truthyCache, [.get "k"], [], 0⟩ ∧
    cacheHit [] (CacheKeys.SEARCH "paris") = none ∧
    (NominatimService.search (forRoot {}) trParis
        (NominatimService.search (forRoot {}) trParis [] "paris").cache
        "paris").calls = [] ∧
    (NominatimService.search (forRoot {}) trParis
        (NominatimService.search (forRoot {}) trParis [] "paris").cache
        "paris").result =
      (NominatimService.search (forRoot {}) trParis [] "paris").result := by
  refine ⟨?_, rfl, ?_, ?_⟩
  · exact (claim_C1_cachedRequest_amended truthyCache "k" freshFetch none).1
      (CVal.vStr "v") rfl
  · exact ((claim_C1_cachedRequest_amended [] "k" freshFetch none).2.2
      (forRoot {}) trParis [] "paris" [CVal.vStr "paris-place"] rfl rfl).1
  · exact ((claim_C1_cachedRequest_amended [] "k" freshFetch none).2.2
      (forRoot {}) trParis [] "paris" [CVal.vStr "paris-place"] rfl rfl).2.2

/-! Claim C2 -/

/-- Claim C2: the cache keys are exactly the fixed templates over the
exact argument values — `search:<q>`, `reverse:<lat>:<lon>`,
`lookup:<ids joined by commas>` — every cache operation of each
operation uses its template key, and every outbound search request
carries the query parameter `q` equal to the exact query string. -/
theorem claim_C2_cache_key_templates (o : ServiceOpts) (tr : Transport)
    (c : Cache) (q : String) (lat lon : Int) (ids : List String)
    (hids : ids ≠ []) :
    CacheKeys.SEARCH q = "search:" ++ q ∧
    CacheKeys.REVERSE lat lon =
      "reverse:" ++ toString lat ++ ":" ++ toString lon ∧
    CacheKeys.LOOKUP ids = "lookup:" ++ String.intercalate "," ids ∧
    (∀ op ∈ (NominatimService.search o tr c q).ops,
      op.key = "search:" ++ q) ∧
    (∀ r ∈ (NominatimService.search o tr c q).calls, ("q", q) ∈ r.params) ∧
    (∀ op ∈ (NominatimService.reverse o tr c ⟨lat, lon⟩).ops,
      op.key = "reverse:" ++ toString lat ++ ":" ++ toString lon) ∧
    (∀ op ∈ (NominatimService.lookup o tr c ids).ops,
      op.key = "lookup:" ++ String.intercalate "," ids) := by
  refine ⟨rfl, rfl, rfl, ?_, ?_, ?_, ?_⟩
  · exact cachedRequest_ops_key c (CacheKeys.SEARCH q)
      (fun _ => request o tr "/search" [("q", q)]) none
  · intro r hr
    have hsub := cachedRequest_calls_sub c (CacheKeys.SEARCH q)
      (fun _ => request o tr "/search" [("q", q)]) none r hr
    rw [request_calls_eq] at hsub
    simp only [List.mem_singleton] at hsub
    subst hsub
    simp
  · exact cachedRequest_ops_key c (CacheKeys.REVERSE lat lon)
      (fun _ => request o tr "/reverse"
        [("lat", toString lat), ("lon", toString lon)]) none
  · intro op hop
    have hlen : ¬ ids.length = 0 := fun h => hids (List.length_eq_zero.mp h)
    simp only [NominatimService.lookup, if_neg hlen] at hop
    exact cachedRequest_ops_key c (CacheKeys.LOOKUP ids)
      (fun _ => request o tr "/lookup"
        [("osm_ids", String.intercalate "," ids)]) none op hop

theorem claim_C2_witness :
    (["R1", "W2"] : List String) ≠ [] ∧
    CacheKeys.SEARCH "paris" = "search:paris" ∧
    CacheKeys.REVERSE 48 2 = "reverse:48:2" ∧
    CacheKeys.LOOKUP ["R1", "W2"] = "lookup:R1,W2" := by
  refine ⟨by decide, ?_, ?_, ?_⟩
  · exact (claim_C2_cache_key_templates (forRoot {}) trParis [] "paris"
      48 2 ["R1", "W2"] (by decide)).1
  · exact (claim_C2_cache_key_templates (forRoot {}) trParis [] "paris"
      48 2 ["R1", "W2"] (by decide)).2.1
  · exact (claim_C2_cache_key_templates (forRoot {}) trParis [] "paris"
      48 2 ["R1", "W2"] (by decide)).2.2.1

/-! Claim C3 -/

/-- Claim C3: `lookup` with an empty id list throws the validation error
before any cache operation or outbound request (result is the error, the
cache is untouched, no cache op and no HTTP call happened); with any
non-empty id list it proceeds: it performs a cache lookup, and every
cache operation it performs uses the key formed by joining the ids with
commas — for `["R1","W2"]` the key `lookup:R1,W2`. -/
theorem claim_C3_lookup_empty_guard (o : ServiceOpts) (tr : Transport)
    (c : Cache) (ids : List String) (hids : ids ≠ []) :
    NominatimService.lookup o tr c [] =
      ⟨.error (.generic "lookup requires at least one OSM ID"),
        c, [], [], 0⟩ ∧
    CacheOp.get (CacheKeys.LOOKUP ids) ∈ (NominatimService.lookup o tr c ids).ops ∧
    (∀ op ∈ (NominatimService.lookup o tr c ids).ops,
      op.key = "lookup:" ++ String.intercalate "," ids) ∧
    (∀ op ∈ (NominatimService.lookup o tr c ["R1", "W2"]).ops,
      op.key = "lookup:R1,W2") := by
  have hlen : ¬ ids.length = 0 := fun h => hids (List.length_eq_zero.mp h)
  refine ⟨rfl, ?_, ?_, ?_⟩
  · simp only [NominatimService.lookup, if_neg hlen]
    unfold cachedRequest
    cases h : cacheHit c (CacheKeys.LOOKUP ids) with
    | none =>
      cases hf : (request o tr "/lookup"
          [("osm_ids", String.intercalate "," ids)]).result with
      | ok res => simp
      | error e => simp
    | some v => simp
  · intro op hop
    simp only [NominatimService.lookup, if_neg hlen] at hop
    exact cachedRequest_ops_key c (CacheKeys.LOOKUP ids)
      (fun _ => request o tr "/lookup"
        [("osm_ids", String.intercalate "," ids)]) none op hop
  · intro op hop
    have h2 : (["R1", "W2"] : List String) ≠ [] := by decide
    have hlen2 : ¬ (["R1", "W2"] : List String).length = 0 := by decide
    simp only [NominatimService.lookup, if_neg hlen2] at hop
    exact cachedRequest_ops_key c (CacheKeys.LOOKUP ["R1", "W2"])
      (fun _ => request o tr "/lookup"
        [("osm_ids", String.intercalate "," ["R1", "W2"])]) none op hop

theorem claim_C3_witness :
    (["R1", "W2"] : List String) ≠ [] ∧
    NominatimService.lookup (forRoot {}) trParis [] [] =
      ⟨.error (.generic "lookup requires at least one OSM ID"),
        [], [], [], 0⟩ :=
  ⟨by decide, (claim_C3_lookup_empty_guard (forRoot {}) trParis []
    ["R1", "W2"] (by decide)).1⟩

/-! Claim C4 -/

/-- Claim C4: whenever the underlying HTTP call fails — for any
transport error whatsoever — `request` surfaces the single generic error
with message `"Nominatim request failed"`; the surfaced failure does not
depend on the underlying transport error at all, so neither the original
exception nor its type reaches the caller. -/
theorem claim_C4_request_generic_error (o : ServiceOpts) (tr : Transport)
    (url : String) (params : List (String × String)) (e : TransportError)
    (h : tr ⟨url, defaultParams o ++ params⟩ = .error e) :
    (request o tr url params).result =
      .error (.generic "Nominatim request failed") ∧
    (∀ (tr' : Transport) (e' : TransportError),
      tr' ⟨url, defaultParams o ++ params⟩ = .error e' →
      (request o tr' url params).result = (request o tr url params).result) := by
  constructor
  · unfold request
    rw [h]
  · intro tr' e' h'
    unfold request
    rw [h, h']

/-- A transport in which every call fails with a timeout-style axios
error that carries no response. -/
def trTimeout : Transport := fun _ =>
  .error (.axiosError "timeout of 5000ms exceeded" none none)

theorem claim_C4_witness :
    trTimeout ⟨"/search", defaultParams (forRoot {}) ++ [("q", "paris")]⟩ =
      .error (.axiosError "timeout of 5000ms exceeded" none none) ∧
    (request (forRoot {}) trTimeout "/search" [("q", "paris")]).result =
      .error (.generic "Nominatim request failed") :=
  ⟨rfl, (claim_C4_request_generic_error (forRoot {}) trTimeout "/search"
    [("q", "paris")] (.axiosError "timeout of 5000ms exceeded" none none)
    rfl).1⟩

/-! Claim C5 -/

/-- Claim C5: `formatLocation` uses the fixed per-field fallback order:
`region` is the address's `state` field if present, else its `region`
field, else null; `commune` is the first present field among
`municipality`, `city`, `town`, `village`, `county`, else null.  In
particular, with `state` absent the result's region is the `region`
field, and whenever `municipality` is set the result's commune equals it
(regardless of `city`). -/
theorem claim_C5_formatLocation_fallbacks (data : NominatimPlace) :
    (formatLocation data).region =
      ((data.address.getD {}).state <|> (data.address.getD {}).region) ∧
    (formatLocation data).commune =
      ((data.address.getD {}).municipality <|> (data.address.getD {}).city
        <|> (data.address.getD {}).town <|> (data.address.getD {}).village
        <|> (data.address.getD {}).county) ∧
    ((data.address.getD {}).state = none →
      (formatLocation data).region = (data.address.getD {}).region) ∧
    (∀ m, (data.address.getD {}).municipality = some m →
      (formatLocation data).commune = some m) := by
  refine ⟨rfl, rfl, ?_, ?_⟩
  · intro h
    simp [formatLocation, h]
  · intro m h
    simp [formatLocation, h]

/-- A Place whose address has `state` absent, `region` set to
`"Bretagne"`, and both `municipality` and `city` set. -/
def placeBretagne : NominatimPlace :=
  { address := some { region := some "Bretagne",
                      municipality := some "Ploermel Communaute",
                      city := some "Ploermel" },
    display_name := some "Ploermel, Bretagne, France" }

theorem claim_C5_witness :
    (placeBretagne.address.getD {}).state = none ∧
    (placeBretagne.address.getD {}).city = some "Ploermel" ∧
    (formatLocation placeBretagne).region = some "Bretagne" ∧
    (formatLocation placeBretagne).commune = some "Ploermel Communaute" := by
  refine ⟨rfl, rfl, ?_, ?_⟩
  · exact ((claim_C5_formatLocation_fallbacks placeBretagne).2.2.1 rfl).trans rfl
  · exact (claim_C5_formatLocation_fallbacks placeBretagne).2.2.2
      "Ploermel Communaute" rfl

/-! Claim C6 -/

/-- Claim C6: for every coordinate pair (on a cache miss, so that the
upstream is actually consulted), `reverse` returns exactly the single
Place value carried by a successful upstream response, and fails with
the generic request error when the upstream yields no place (surfaced as
an unsuccessful transport outcome). -/
theorem claim_C6_reverse_single_place (o : ServiceOpts) (tr : Transport)
    (c : Cache) (coordinates : Coordinates)
    (hmiss : cacheHit c
      (CacheKeys.REVERSE coordinates.lat coordinates.lon) = none) :
    (∀ place, tr ⟨"/reverse", defaultParams o ++
        [("lat", toString coordinates.lat),
         ("lon", toString coordinates.lon)]⟩ = .ok place →
      (NominatimService.reverse o tr c coordinates).result = .ok place) ∧
    (∀ e, tr ⟨"/reverse", defaultParams o ++
        [("lat", toString coordinates.lat),
         ("lon", toString coordinates.lon)]⟩ = .error e →
      (NominatimService.reverse o tr c coordinates).result =
        .error (.generic "Nominatim request failed")) := by
  constructor
  · intro place h
    unfold NominatimService.reverse cachedRequest request
    rw [hmiss]
    simp [h]
  · intro e h
    unfold NominatimService.reverse cachedRequest request
    rw [hmiss]
    simp [h]

/-- A single upstream Place value, as the reverse endpoint returns it. -/
def placeVal : CVal :=
  .vObj [("display_name", .vStr "Paris, Ile-de-France, France"),
         ("lat", .vStr "48.85"), ("lon", .vStr "2.35")]

/-- A transport whose every response is the single place `placeVal`. -/
def trOnePlace : Transport := fun _ => .ok placeVal

theorem claim_C6_witness :
    cacheHit [] (CacheKeys.REVERSE 48 2) = none ∧
    (NominatimService.reverse (forRoot {}) trOnePlace [] ⟨48, 2⟩).result =
      .ok placeVal ∧
    (NominatimService.reverse (forRoot {}) trTimeout [] ⟨48, 2⟩).result =
      .error (.generic "Nominatim request failed") :=
  ⟨rfl,
   (claim_C6_reverse_single_place (forRoot {}) trOnePlace [] ⟨48, 2⟩ rfl).1
     placeVal rfl,
   (claim_C6_reverse_single_place (forRoot {}) trTimeout [] ⟨48, 2⟩ rfl).2
     (.axiosError "timeout of 5000ms exceeded" none none) rfl⟩

/-! Claim C7 -/

/-- Claim C7: after any number of prior public calls of any kind,
`healthCheck` performs no cache operation at all and leaves the cache
contents exactly as they were. -/
theorem claim_C7_healthCheck_no_cache (o : ServiceOpts) (tr : Transport)
    (c0 : Cache) (prior : List Call) :
    (NominatimService.healthCheck o tr (runCalls o tr c0 prior)).cache =
      runCalls o tr c0 prior ∧
    (NominatimService.healthCheck o tr (runCalls o tr c0 prior)).ops = [] :=
  ⟨rfl, rfl⟩

/-! Claim C8 -/

/-- Claim C8: every outbound request of every operation carries
`format=json` and `accept-language=<configured language>`, and carries
`addressdetails=1`, `extratags=1`, `namedetails=1` exactly when the
corresponding option is true. -/
theorem claim_C8_default_params (o : ServiceOpts) (tr : Transport)
    (c : Cache) (call : Call) :
    ∀ r ∈ (runCall o tr c call).calls,
      ("format", "json") ∈ r.params ∧
      ("accept-language", o.language) ∈ r.params ∧
      (("addressdetails", "1") ∈ r.params ↔ o.addressdetails = true) ∧
      (("extratags", "1") ∈ r.params ↔ o.extratags = true) ∧
      (("namedetails", "1") ∈ r.params ↔ o.namedetails = true) := by
  intro r hr
  obtain ⟨extra, hp, hkeys⟩ := runCall_calls_shape o tr c call r hr
  rw [hp]
  refine ⟨List.mem_append_left _ (mem_defaultParams_format o),
          List.mem_append_left _ (mem_defaultParams_language o), ?_, ?_, ?_⟩
  · constructor
    · intro h
      rcases List.mem_append.mp h with h | h
      · exact (mem_defaultParams_addressdetails o).mp h
      · rcases hkeys _ h with h1 | h1 | h1 | h1 <;> simp at h1
    · intro h
      exact List.mem_append_left _
        ((mem_defaultParams_addressdetails o).mpr h)
  · constructor
    · intro h
      rcases List.mem_append.mp h with h | h
      · exact (mem_defaultParams_extratags o).mp h
      · rcases hkeys _ h with h1 | h1 | h1 | h1 <;> simp at h1
    · intro h
      exact List.mem_append_left _ ((mem_defaultParams_extratags o).mpr h)
  · constructor
    · intro h
      rcases List.mem_append.mp h with h | h
      · exact (mem_defaultParams_namedetails o).mp h
      · rcases hkeys _ h with h1 | h1 | h1 | h1 <;> simp at h1
    · intro h
      exact List.mem_append_left _ ((mem_defaultParams_namedetails o).mpr h)

/-- The concrete outbound request issued by `search("paris")` under the
default options. -/
def reqSearchParis : HttpRequest :=
  ⟨"/search", defaultParams (forRoot {}) ++ [("q", "paris")]⟩

theorem claim_C8_witness :
    reqSearchParis ∈
      (runCall (forRoot {}) trParis [] (Call.search "paris")).calls ∧
    ("format", "json") ∈ reqSearchParis.params ∧
    ("accept-language", "en") ∈ reqSearchParis.params ∧
    ("addressdetails", "1") ∈ reqSearchParis.params := by
  have hmem : reqSearchParis ∈
      (runCall (forRoot {}) trParis [] (Call.search "paris")).calls := by
    decide
  have h := claim_C8_default_params (forRoot {}) trParis []
    (Call.search "paris") reqSearchParis hmem
  exact ⟨hmem, h.1, h.2.1, h.2.2.1.mpr rfl⟩

/-! Claim C9 -/

/-- Claim C9: when the fetch function throws (on a cache miss, the only
situation in which it is invoked), `cachedRequest` propagates that very
error, the cache afterwards is exactly the cache before, and the only
cache operation performed is the initial read — no write happens. -/
theorem claim_C9_fetch_error_no_write (c : Cache) (k : String)
    (fetch : Unit → ReqOutcome) (ttl : Option Nat) (e : ServiceError)
    (hmiss : cacheHit c k = none) (herr : (fetch ()).result = .error e) :
    (cachedRequest c k fetch ttl).result = .error e ∧
    (cachedRequest c k fetch ttl).cache = c ∧
    (cachedRequest c k fetch ttl).ops = [.get k] := by
  unfold cachedRequest
  rw [hmiss, herr]
  exact ⟨rfl, rfl, rfl⟩

/-- A fetch function that always throws the generic request error. -/
def failFetch : Unit → ReqOutcome :=
  fun _ => ⟨.error (.generic "Nominatim request failed"), []⟩

theorem claim_C9_witness :
    cacheHit [] "k" = none ∧
    (cachedRequest [] "k" failFetch none).result =
      .error (.generic "Nominatim request failed") ∧
    (cachedRequest [] "k" failFetch none).cache = [] :=
  ⟨rfl,
   (claim_C9_fetch_error_no_write [] "k" failFetch none
     (.generic "Nominatim request failed") rfl rfl).1,
   (claim_C9_fetch_error_no_write [] "k" failFetch none
     (.generic "Nominatim request failed") rfl rfl).2.1⟩

/-! Claim C10 -/

/-- Claim C10: when `forRoot` is called without an `addressdetails`
option the resolved value is `true` (the `NominatimConfig` default), so
every outbound request then carries `addressdetails=1`; `extratags` and
`namedetails` left unset resolve to `false`. -/
theorem claim_C10_forRoot_defaults (options : NominatimModuleOptions)
    (h1 : options.addressdetails = none) (h2 : options.extratags = none)
    (h3 : options.namedetails = none) :
    (forRoot options).addressdetails = true ∧
    (forRoot options).extratags = false ∧
    (forRoot options).namedetails = false ∧
    ("addressdetails", "1") ∈ defaultParams (forRoot options) ∧
    (∀ (tr : Transport) (c : Cache) (call : Call),
      ∀ r ∈ (runCall (forRoot options) tr c call).calls,
        ("addressdetails", "1") ∈ r.params) := by
  have ha : (forRoot options).addressdetails = true := by
    simp [forRoot, h1, NominatimConfig]
  have he : (forRoot options).extratags = false := by
    simp [forRoot, h2, NominatimConfig]
  have hn : (forRoot options).namedetails = false := by
    simp [forRoot, h3, NominatimConfig]
  refine ⟨ha, he, hn, (mem_defaultParams_addressdetails _).mpr ha, ?_⟩
  intro tr c call r hr
  obtain ⟨extra, hp, _⟩ := runCall_calls_shape _ tr c call r hr
  rw [hp]
  exact List.mem_append_left _ ((mem_defaultParams_addressdetails _).mpr ha)

theorem claim_C10_witness :
    ({} : NominatimModuleOptions).addressdetails = none ∧
    (forRoot {}).addressdetails = true ∧
    (forRoot {}).extratags = false ∧
    (forRoot {}).namedetails = false :=
  ⟨rfl,
   (claim_C10_forRoot_defaults {} rfl rfl rfl).1,
   (claim_C10_forRoot_defaults {} rfl rfl rfl).2.1,
   (claim_C10_forRoot_defaults {} rfl rfl rfl).2.2.1⟩
